import Mathlib

/-!
Verification development for the KnowInfo misinformation-analysis engine.

Shallow embedding of the verification pipeline (`src/stage3_verification/rag_engine.py`),
the model-provider fallback chain (`src/utils/model_manager.py`), the velocity counters
(`src/database/redis_cache.py`), the propagation-graph queries (`src/database/neo4j_db.py`)
and the guardrails policy layer (`src/utils/guardrails.py`).

Python floats are modelled as exact rationals (`ℚ`), Python lists as `List`,
raised exceptions as `Except Unit`, and the Redis / Neo4j stores as explicit
in-memory data passed to each operation.
-/

namespace KnowInfo

/-- Verification status enum (`VerificationStatus` in `src/models/verification.py`). -/
inductive VerificationStatus
  | TRUE
  | FALSE
  | MISLEADING
  | UNVERIFIED
  | OUTDATED
deriving DecidableEq, Repr

/-- Source credibility enum (`SourceCredibility` in `src/models/verification.py`). -/
inductive SourceCredibility
  | high
  | medium
  | low
  | unknown
deriving DecidableEq, Repr

/-- A source document used in verification (`VerificationSource` pydantic model).
`relevance_score` carries the pydantic constraint `ge=0.0, le=1.0` as a side condition
on inputs; fields not consulted by the verification logic are kept as plain data. -/
structure VerificationSource where
  source_id : String
  title : String
  source_type : String
  credibility : SourceCredibility
  relevant_excerpt : String
  supports_claim : Bool
  relevance_score : ℚ
deriving DecidableEq, Repr

/-- The consensus dictionary produced by `RAGEngine._calculate_consensus`.
On the empty-evidence branch the Python dict omits the `supporting_ratio` key;
that branch is never consulted downstream (`verify_claim` returns before
`_determine_status` runs), and we record the ratio as `0` there. -/
structure Consensus where
  type : String
  confidence : ℚ
  supporting_ratio : ℚ
deriving DecidableEq, Repr

/-- `RAGEngine._calculate_consensus` (rag_engine.py lines 159-182). -/
def calculateConsensus (sources : List VerificationSource) : Consensus :=
  if sources.isEmpty then
    { type := "none", confidence := 0, supporting_ratio := 0 }
  else
    let supporting : ℚ := ((sources.filter (fun s => s.supports_claim)).length : ℚ)
    let total : ℚ := (sources.length : ℚ)
    let ratio : ℚ := supporting / total
    if ratio ≥ 9/10 ∨ ratio ≤ 1/10 then
      { type := "unanimous", confidence := 95, supporting_ratio := ratio }
    else if ratio ≥ 7/10 ∨ ratio ≤ 3/10 then
      { type := "majority", confidence := 70, supporting_ratio := ratio }
    else
      { type := "split", confidence := 40, supporting_ratio := ratio }

/-- `RAGEngine._determine_status` (rag_engine.py lines 221-232). -/
def determineStatus (consensus : Consensus) : VerificationStatus :=
  let ratio := consensus.supporting_ratio
  if ratio ≥ 8/10 then VerificationStatus.TRUE
  else if ratio ≤ 2/10 then VerificationStatus.FALSE
  else if 3/10 ≤ ratio ∧ ratio ≤ 7/10 then VerificationStatus.MISLEADING
  else VerificationStatus.UNVERIFIED

/-- `RAGEngine._calculate_confidence` (rag_engine.py lines 234-254). -/
def calculateConfidence (sources : List VerificationSource) (consensus : Consensus) : ℚ :=
  let base_confidence := consensus.confidence
  let high_cred_count : ℕ :=
    (sources.filter (fun s => s.credibility = SourceCredibility.high)).length
  let credibility_boost : ℚ := min ((high_cred_count : ℚ) * 5) 20
  let avg_relevance : ℚ :=
    if sources.isEmpty then 0
    else (sources.map (fun s => s.relevance_score)).sum / (sources.length : ℚ)
  let relevance_factor := avg_relevance
  let final_confidence := (base_confidence + credibility_boost) * relevance_factor
  min final_confidence 100

/-- Outcome of one provider slot in `ModelManager.generate_text`'s loop
(model_manager.py lines 111-127): `unavailable` models a client that was never
initialized (the `and self.xxx_client` guard skips it without any call),
`failure` an attempt whose exception is caught so the loop continues,
`success` a returned text. -/
inductive ProviderAttempt
  | unavailable
  | failure
  | success (text : String)
deriving DecidableEq, Repr

/-- `ModelManager.generate_text` (model_manager.py lines 98-129): try each
provider in priority order, return the first successful text; when the chain is
exhausted raise `RuntimeError("All model providers failed")`, modelled as
`Except.error ()`. -/
def generateText : List ProviderAttempt → Except Unit String
  | [] => Except.error ()
  | ProviderAttempt.success t :: _ => Except.ok t
  | ProviderAttempt.unavailable :: rest => generateText rest
  | ProviderAttempt.failure :: rest => generateText rest

/-- Character-list version of Python `str.upper` (ASCII case mapping). -/
def upperChars (s : List Char) : List Char := s.map Char.toUpper

/-- Character-list version of Python `str.lower` (ASCII case mapping). -/
def lowerChars (s : List Char) : List Char := s.map Char.toLower

/-- Whether `needle` occurs at the head of `hay`. -/
def leadsWith : List Char → List Char → Bool
  | [], _ => true
  | _ :: _, [] => false
  | a :: as, b :: bs => a = b && leadsWith as bs

/-- Python substring containment `needle in hay`, on character lists. -/
def hasSub (needle : List Char) : List Char → Bool
  | [] => leadsWith needle []
  | c :: cs => leadsWith needle (c :: cs) || hasSub needle cs

/-- The stance parse of `RAGEngine._check_support` (rag_engine.py line 157):
`"SUPPORTS" in response.upper()`. -/
def checkSupportParse (response : String) : Bool :=
  hasSub "SUPPORTS".data (upperChars response.data)

/-- `RAGEngine._check_support` (rag_engine.py lines 141-157): the constrained
prompt is sent through `generate_text` (a provider-chain failure propagates as
the exception), and a successful response is parsed by `checkSupportParse`. -/
def checkSupport (gen : List ProviderAttempt) : Except Unit Bool :=
  (generateText gen).map checkSupportParse

/-- One hit returned by the vector-store query in `_retrieve_sources`
(rag_engine.py lines 106-116): id, metadata, document text and distance.
The credibility metadata is modelled already parsed into the enum. -/
structure QueryItem where
  doc_id : String
  title : String
  source_type : String
  credibility : SourceCredibility
  document : String
  distance : ℚ
deriving DecidableEq, Repr

/-- Building the `VerificationSource` for one query hit (rag_engine.py lines
112-131): relevance is `1/(1+distance)` clamped to `[0,1]`, the stance comes
from `_check_support`. -/
def mkSource (item : QueryItem) (supports : Bool) : VerificationSource :=
  { source_id := item.doc_id
    title := item.title
    source_type := item.source_type
    credibility := item.credibility
    relevant_excerpt := item.document
    supports_claim := supports
    relevance_score := max 0 (min 1 (1 / (1 + item.distance))) }

/-- The per-hit loop of `_retrieve_sources` (rag_engine.py lines 111-133): the
i-th hit consumes the i-th generation behavior for its `_check_support` call.
Returns the sources built (or the first raised error) together with the number
of `generate_text` calls that were made. -/
def retrieveLoop : List QueryItem → List (List ProviderAttempt) →
    Except Unit (List VerificationSource) × Nat
  | [], _ => (Except.ok [], 0)
  | item :: items, gens =>
    match generateText (gens.headD []) with
    | Except.error _ => (Except.error (), 1)
    | Except.ok resp =>
      match retrieveLoop items gens.tail with
      | (Except.error _, n) => (Except.error (), n + 1)
      | (Except.ok srcs, n) =>
        (Except.ok (mkSource item (checkSupportParse resp) :: srcs), n + 1)

/-- `RAGEngine._retrieve_sources` (rag_engine.py lines 92-139). `store` is
`none` when the vector store failed to initialize (line 98 early return);
`embed` is the outcome of `generate_embeddings`; `stanceGens` drives the
successive `_check_support` generation calls. Any exception inside the `try`
block — an embedding failure or an exhausted provider chain during stance
checking — is caught and yields the empty list (lines 137-139). The second
component counts the `generate_text` calls made. -/
def retrieveSources (store : Option (List QueryItem)) (embed : Except Unit Unit)
    (stanceGens : List (List ProviderAttempt)) : List VerificationSource × Nat :=
  match store with
  | none => ([], 0)
  | some items =>
    match embed with
    | Except.error _ => ([], 0)
    | Except.ok _ =>
      match retrieveLoop items stanceGens with
      | (Except.error _, n) => ([], n)
      | (Except.ok srcs, n) => (srcs, n)

/-- The fields of the `VerificationResult` pydantic model
(src/models/verification.py lines 43-64) that the pipeline writes or the
claims consult. `expert_review_required` defaults to `False`, and
`metadata_priority` models `str(metadata.get("priority", ""))` (default: no
`priority` key). -/
structure VerificationResult where
  claim_id : String
  claim_text : String
  status : VerificationStatus
  confidence_score : ℚ
  sources : List VerificationSource := []
  explanation : String
  supporting_sources_count : Nat := 0
  contradicting_sources_count : Nat := 0
  consensus_type : String
  expert_review_required : Bool := false
  metadata_priority : String := ""
deriving DecidableEq, Repr

/-- `RAGEngine.verify_claim` (rag_engine.py lines 41-90), with the generation
service made explicit: `stanceGens` drives the `_check_support` calls made
inside `_retrieve_sources`, and `explGen` the single `generate_text` call of
`_generate_explanation` (whose exception, unlike the retrieval ones, is not
caught anywhere in `verify_claim`). Returns the result — or the uncaught
exception — together with the total number of `generate_text` calls made. -/
def verifyClaim (claim_id claim_text : String) (store : Option (List QueryItem))
    (embed : Except Unit Unit) (stanceGens : List (List ProviderAttempt))
    (explGen : List ProviderAttempt) : Except Unit VerificationResult × Nat :=
  let retrieved := retrieveSources store embed stanceGens
  let sources := retrieved.1
  if sources.isEmpty then
    (Except.ok
      { claim_id := claim_id
        claim_text := claim_text
        status := VerificationStatus.UNVERIFIED
        confidence_score := 0
        explanation := "No authoritative sources found to verify this claim."
        consensus_type := "none" }, retrieved.2)
  else
    let consensus := calculateConsensus sources
    match generateText explGen with
    | Except.error _ => (Except.error (), retrieved.2 + 1)
    | Except.ok expl =>
      let status := determineStatus consensus
      let confidence := calculateConfidence sources consensus
      (Except.ok
        { claim_id := claim_id
          claim_text := claim_text
          status := status
          confidence_score := confidence
          sources := sources
          explanation := expl.trim
          supporting_sources_count := (sources.filter (fun s => s.supports_claim)).length
          contradicting_sources_count := (sources.filter (fun s => !s.supports_claim)).length
          consensus_type := consensus.type
          expert_review_required := decide (confidence < 60) }, retrieved.2 + 1)

/-- `GuardrailsManager.require_expert_review` (guardrails.py lines 181-212),
parameterized by the configurable low confidence threshold
(`confidence_threshold_low`, default 60). The medical-term scan lowers the
claim text first (`claim_text.lower()`), and the priority check is
`"P0" in str(verification.metadata.get("priority", ""))`. -/
def requireExpertReview (confidence_threshold_low : ℚ)
    (verification : VerificationResult) (claim_text : String) : Bool × String :=
  if verification.confidence_score < confidence_threshold_low then
    (true, "Low confidence score")
  else if verification.consensus_type = "split" then
    (true, "Conflicting evidence from sources")
  else if hasSub "P0".data verification.metadata_priority.data then
    (true, "P0 priority claim - potential imminent harm")
  else if (hasSub "medical".data (lowerChars claim_text.data)
        || hasSub "vaccine".data (lowerChars claim_text.data)
        || hasSub "treatment".data (lowerChars claim_text.data))
      && decide ((verification.sources.filter
          (fun s => s.credibility = SourceCredibility.high)).length < 2) then
    (true, "Medical claim with insufficient high-credibility sources")
  else
    (false, "")

/-- Redis lazily drops a key whose expiry has passed: any command issued at
time `now` sees an expired key as absent. A velocity key state is `none` when
absent, otherwise the stored count with its absolute expiry time. -/
def liveKey (now : Nat) : Option (Nat × Nat) → Option (Nat × Nat)
  | none => none
  | some (c, e) => if now < e then some (c, e) else none

/-- `RedisManager.increment_claim_velocity` (redis_cache.py lines 119-132):
`INCR` the key (an absent or expired key restarts from 0), and when the returned
count is 1 — the first increment — set the expiry one window ahead
(`window_seconds`, default 3600). Returns the new count and key state. -/
def incrementClaimVelocity (now window : Nat) (st : Option (Nat × Nat)) :
    Nat × Option (Nat × Nat) :=
  match liveKey now st with
  | none => (1, some (1, now + window))
  | some (c, e) => (c + 1, some (c + 1, e))

/-- `RedisManager.get_claim_velocity` (redis_cache.py lines 134-138), a pure
read: 0 for an absent or expired key. -/
def getClaimVelocity (now : Nat) (st : Option (Nat × Nat)) : Nat :=
  match liveKey now st with
  | none => 0
  | some (c, _) => c

/-- Fold a sequence of increments (timestamps in call order) over an initial
key state; the first component is the count returned by the last increment
(0 when no increment was made). -/
def runIncrements (window : Nat) (times : List Nat) (st : Option (Nat × Nat)) :
    Nat × Option (Nat × Nat) :=
  times.foldl (fun acc t => incrementClaimVelocity t window acc.2) (0, st)

/-- `RedisManager.get_trending_claims` (redis_cache.py lines 140-160): scan all
live velocity keys, keep those whose count reaches `min_velocity` (default
500), sorted by count descending. -/
def getTrendingClaims (now : Nat) (counters : List (String × Option (Nat × Nat)))
    (min_velocity : Nat) : List (String × Nat) :=
  List.insertionSort (fun a b => b.2 ≤ a.2)
    ((counters.filterMap
        (fun kv => (liveKey now kv.2).map (fun ce => (kv.1, ce.1)))).filter
      (fun kc => min_velocity ≤ kc.2))

/-- A `Post` node of the Neo4j graph (properties written by
`create_post_node`, neo4j_db.py lines 65-88); `created_at` is an abstract
timestamp. -/
structure Post where
  post_id : String
  text : String
  claim_text : String
  platform : String
  created_at : Nat
deriving DecidableEq, Repr

/-- A `User` node of the Neo4j graph (properties written by
`create_user_node`, neo4j_db.py lines 43-63). -/
structure User where
  user_id : String
  username : String
  followers_count : Nat
  platform : String
deriving DecidableEq, Repr

/-- A `POSTED` edge: the posting user node attached to a post id. -/
structure PostedEdge where
  user : User
  post_id : String
deriving DecidableEq, Repr

/-- A `SHARED_FROM` edge from reshare `child_id` to its source post
`parent_id` (created by `create_shared_relationship`, neo4j_db.py
lines 102-125). -/
structure SharedFromEdge where
  child_id : String
  parent_id : String
deriving DecidableEq, Repr

/-- The record returned by `find_patient_zero` (neo4j_db.py lines 138-144). -/
structure PatientZeroRecord where
  post_id : String
  text : String
  created_at : Nat
  platform : String
  user_id : String
  username : String
  followers_count : Nat
deriving DecidableEq, Repr

/-- One comparison step of `ORDER BY timestamp ASC LIMIT 1`: keep the earlier
post, the incumbent on ties. -/
def earlierPost (best q : Post) : Post :=
  if q.created_at < best.created_at then q else best

/-- `ORDER BY timestamp ASC LIMIT 1`: the first post with minimal `created_at`
(Neo4j leaves the order of ties unspecified; this model keeps the first
matching node). -/
def earliestPost : List Post → Option Post
  | [] => none
  | p :: ps => some (ps.foldl earlierPost p)

/-- `Neo4jManager.find_patient_zero` (neo4j_db.py lines 128-150): among posts
whose `claim_text` CONTAINS the target text, take the earliest by
`created_at`, join its posting user, and return the joined record; when no
post matches (or the selected post has no posting user) the query yields no
row and the function returns `None` rather than raising. -/
def findPatientZero (claim_text : String) (posts : List Post)
    (posted : List PostedEdge) : Option PatientZeroRecord :=
  match earliestPost (posts.filter (fun p => hasSub claim_text.data p.claim_text.data)) with
  | none => none
  | some p =>
    match posted.find? (fun e => e.post_id = p.post_id) with
    | none => none
    | some e =>
      some { post_id := p.post_id, text := p.text, created_at := p.created_at,
             platform := p.platform, user_id := e.user.user_id,
             username := e.user.username, followers_count := e.user.followers_count }

/-- Post ids reachable from `origin` by following exactly `k` `SHARED_FROM`
edges backwards, one entry per distinct path (Cypher enumerates paths). -/
def sharedAtDepth (edges : List SharedFromEdge) (origin : String) : Nat → List String
  | 0 => [origin]
  | k + 1 =>
    (sharedAtDepth edges origin k).flatMap
      (fun pid => (edges.filter (fun e => e.parent_id = pid)).map (fun e => e.child_id))

/-- A row of `get_propagation_tree` (neo4j_db.py lines 158-164). -/
structure TreeRow where
  post_id : String
  created_at : Nat
  user_id : String
  username : String
  followers_count : Nat
  depth : Nat
deriving DecidableEq, Repr

/-- The row ordering `ORDER BY depth, created_at`. -/
def treeRowLE (a b : TreeRow) : Prop :=
  a.depth < b.depth ∨ (a.depth = b.depth ∧ a.created_at ≤ b.created_at)

instance : DecidableRel treeRowLE := fun a b => by unfold treeRowLE; infer_instance

instance : IsTotal TreeRow treeRowLE := ⟨by intro a b; unfold treeRowLE; omega⟩

instance : IsTrans TreeRow treeRowLE := ⟨by intro a b c; unfold treeRowLE; omega⟩

/-- The unsorted row set of `get_propagation_tree`: the Cypher pattern
`(original:Post {post_id})<-[:SHARED_FROM*0..max_depth]-(shared:Post)` —
note `*0..`, so the origin itself matches at path length 0 — joined with
`(u:User)-[:POSTED]->(shared)`, producing one row per (path, posting-user)
pair with `depth = length(path)`. -/
def propagationRows (posts : List Post) (posted : List PostedEdge)
    (edges : List SharedFromEdge) (origin : String) (max_depth : Nat) : List TreeRow :=
  (List.range (max_depth + 1)).flatMap fun k =>
    (sharedAtDepth edges origin k).flatMap fun pid =>
      match posts.find? (fun p => p.post_id = pid) with
      | none => []
      | some p =>
        (posted.filter (fun e => e.post_id = pid)).map fun e =>
          { post_id := pid, created_at := p.created_at, user_id := e.user.user_id,
            username := e.user.username, followers_count := e.user.followers_count,
            depth := k }

/-- `Neo4jManager.get_propagation_tree` (neo4j_db.py lines 152-168): the row
set above ordered by `(depth, created_at)`. -/
def getPropagationTree (posts : List Post) (posted : List PostedEdge)
    (edges : List SharedFromEdge) (origin : String) (max_depth : Nat) : List TreeRow :=
  List.insertionSort treeRowLE (propagationRows posts posted edges origin max_depth)

/-- A concrete single-hit store entry used in concrete runs of the pipeline. -/
def sampleItem : QueryItem :=
  { doc_id := "d1", title := "WHO advisory", source_type := "medical",
    credibility := SourceCredibility.high, document := "official advisory text",
    distance := 0 }

/-- Projects the successful result out of a `verifyClaim` run (placeholder
record on the error side), used to name the result of a concrete run. -/
def okResult (e : Except Unit VerificationResult × Nat) : VerificationResult :=
  match e.1 with
  | Except.ok r => r
  | Except.error _ =>
    { claim_id := "", claim_text := "", status := VerificationStatus.UNVERIFIED,
      confidence_score := 0, explanation := "", consensus_type := "none" }

/-- Concrete posts A (t=10), B (t=5), C (t=20) sharing the claim text. -/
def postA : Post :=
  { post_id := "A", text := "post a", claim_text := "the dam broke", platform := "tw",
    created_at := 10 }

def postB : Post :=
  { post_id := "B", text := "post b", claim_text := "the dam broke", platform := "tw",
    created_at := 5 }

def postC : Post :=
  { post_id := "C", text := "post c", claim_text := "the dam broke", platform := "tw",
    created_at := 20 }

def userB : User :=
  { user_id := "uB", username := "bob", followers_count := 50, platform := "tw" }

/-- `POSTED` edges joining each of the posts A, B, C to a user. -/
def pzEdges : List PostedEdge :=
  [ { user := { user_id := "uA", username := "alice", followers_count := 100, platform := "tw" },
      post_id := "A" },
    { user := userB, post_id := "B" },
    { user := { user_id := "uC", username := "carol", followers_count := 10, platform := "tw" },
      post_id := "C" } ]

/-- Expected `find_patient_zero` result for the A/B/C example: post B joined
to its user. -/
def pzB : PatientZeroRecord :=
  { post_id := "B", text := "post b", created_at := 5, platform := "tw",
    user_id := "uB", username := "bob", followers_count := 50 }

/-- Posts of the 3-level reshare chain `o ← s1 ← s2 ← s3`. -/
def chainPost (id : String) (t : Nat) : Post :=
  { post_id := id, text := id, claim_text := "c", platform := "tw", created_at := t }

def chainUser (id : String) : User :=
  { user_id := id, username := id, followers_count := 10, platform := "tw" }

def chainPosts : List Post :=
  [chainPost "o" 0, chainPost "s1" 1, chainPost "s2" 2, chainPost "s3" 3]

def chainPosted : List PostedEdge :=
  [ { user := chainUser "u0", post_id := "o" },
    { user := chainUser "u1", post_id := "s1" },
    { user := chainUser "u2", post_id := "s2" },
    { user := chainUser "u3", post_id := "s3" } ]

def chainEdges : List SharedFromEdge :=
  [ { child_id := "s1", parent_id := "o" },
    { child_id := "s2", parent_id := "s1" },
    { child_id := "s3", parent_id := "s2" } ]

def rowO : TreeRow :=
  { post_id := "o", created_at := 0, user_id := "u0", username := "u0",
    followers_count := 10, depth := 0 }

def rowS1 : TreeRow :=
  { post_id := "s1", created_at := 1, user_id := "u1", username := "u1",
    followers_count := 10, depth := 1 }

def rowS2 : TreeRow :=
  { post_id := "s2", created_at := 2, user_id := "u2", username := "u2",
    followers_count := 10, depth := 2 }

/-- On every branch `_calculate_consensus` reports a nonnegative base confidence
(0, 95, 70 or 40). -/
lemma calculateConsensus_confidence_nonneg (sources : List VerificationSource) :
    0 ≤ (calculateConsensus sources).confidence := by
  unfold calculateConsensus
  simp only []
  split_ifs <;> norm_num

/-- On a nonempty source list, the ratio recorded by `_calculate_consensus`
is `supporting / total`. -/
lemma calculateConsensus_ratio (sources : List VerificationSource) (hne : ¬ sources.isEmpty) :
    (calculateConsensus sources).supporting_ratio =
      ((sources.filter (fun s => s.supports_claim)).length : ℚ) / (sources.length : ℚ) := by
  unfold calculateConsensus
  simp only []
  split_ifs <;> simp_all

/-- C1: for every non-empty list of stance-labeled evidence sources (each
relevance score within its pydantic bounds `[0,1]`), the confidence computed by
`_calculate_confidence` equals
`min(100, (base_confidence + credibility_boost) × avg_relevance)` with
`credibility_boost = min(5 × count_of_high_credibility_sources, 20)` and
`avg_relevance` the mean relevance over all sources, and the result lies in
`[0, 100]`: never negative and never greater than 100. -/
theorem calculate_confidence_formula_and_bounds
    (sources : List VerificationSource)
    (hne : sources ≠ [])
    (hrel : ∀ s ∈ sources, 0 ≤ s.relevance_score ∧ s.relevance_score ≤ 1) :
    calculateConfidence sources (calculateConsensus sources) =
      min 100 (((calculateConsensus sources).confidence +
          min (5 * ((sources.filter (fun s => s.credibility = SourceCredibility.high)).length : ℚ)) 20) *
        ((sources.map (fun s => s.relevance_score)).sum / (sources.length : ℚ)))
    ∧ 0 ≤ calculateConfidence sources (calculateConsensus sources)
    ∧ calculateConfidence sources (calculateConsensus sources) ≤ 100 := by
  have hempty : sources.isEmpty = false := by
    simpa [List.isEmpty_iff] using hne
  refine ⟨?_, ?_, ?_⟩
  · unfold calculateConfidence
    rw [hempty]
    simp only [Bool.false_eq_true, if_false]
    rw [min_comm, mul_comm (5 : ℚ)]
  · unfold calculateConfidence
    rw [hempty]
    simp only [Bool.false_eq_true, if_false]
    have hbase := calculateConsensus_confidence_nonneg sources
    have hboost : (0 : ℚ) ≤
        min (((sources.filter (fun s => s.credibility = SourceCredibility.high)).length : ℚ) * 5) 20 := by
      apply le_min <;> positivity
    have hsum : (0 : ℚ) ≤ (sources.map (fun s => s.relevance_score)).sum := by
      apply List.sum_nonneg
      intro x hx
      obtain ⟨s, hs, rfl⟩ := List.mem_map.mp hx
      exact (hrel s hs).1
    have hlen : (0 : ℚ) ≤ (sources.length : ℚ) := by positivity
    apply le_min
    · apply mul_nonneg
      · linarith
      · exact div_nonneg hsum hlen
    · norm_num
  · exact min_le_right _ _

/-- C1 witness: a concrete two-source evidence set (one high-credibility
supporting source with relevance 9/10, one contradicting medium source with
relevance 1/2). -/
theorem calculate_confidence_formula_and_bounds_witness :
    0 ≤ calculateConfidence
        [ { source_id := "s1", title := "WHO", source_type := "medical",
            credibility := SourceCredibility.high, relevant_excerpt := "e1",
            supports_claim := true, relevance_score := 9/10 },
          { source_id := "s2", title := "Blog", source_type := "news",
            credibility := SourceCredibility.medium, relevant_excerpt := "e2",
            supports_claim := false, relevance_score := 1/2 } ]
        (calculateConsensus
        [ { source_id := "s1", title := "WHO", source_type := "medical",
            credibility := SourceCredibility.high, relevant_excerpt := "e1",
            supports_claim := true, relevance_score := 9/10 },
          { source_id := "s2", title := "Blog", source_type := "news",
            credibility := SourceCredibility.medium, relevant_excerpt := "e2",
            supports_claim := false, relevance_score := 1/2 } ]) := by
  refine (calculate_confidence_formula_and_bounds _ (by simp) ?_).2.1
  intro s hs
  simp only [List.mem_cons, List.not_mem_nil, or_false] at hs
  rcases hs with rfl | rfl <;> norm_num

/-- C3: `_determine_status` maps the supporting ratio `r = supporting/total`
of a non-empty evidence list to `TRUE` when `r ≥ 0.8`, to `FALSE` when
`r ≤ 0.2`, to `MISLEADING` when `0.3 ≤ r ≤ 0.7`, and to `UNVERIFIED` for every
other ratio, in particular throughout the gap bands `(0.2, 0.3)` and
`(0.7, 0.8)`. -/
theorem determine_status_bands
    (sources : List VerificationSource)
    (hne : sources ≠ [])
    (r : ℚ)
    (hr : r = ((sources.filter (fun s => s.supports_claim)).length : ℚ) / (sources.length : ℚ)) :
    (r ≥ 8/10 → determineStatus (calculateConsensus sources) = VerificationStatus.TRUE)
    ∧ (r ≤ 2/10 → determineStatus (calculateConsensus sources) = VerificationStatus.FALSE)
    ∧ (3/10 ≤ r ∧ r ≤ 7/10 →
        determineStatus (calculateConsensus sources) = VerificationStatus.MISLEADING)
    ∧ (¬ r ≥ 8/10 ∧ ¬ r ≤ 2/10 ∧ ¬ (3/10 ≤ r ∧ r ≤ 7/10) →
        determineStatus (calculateConsensus sources) = VerificationStatus.UNVERIFIED) := by
  have hempty : ¬ sources.isEmpty := by
    simpa [List.isEmpty_iff] using hne
  have hratio := calculateConsensus_ratio sources hempty
  rw [← hr] at hratio
  unfold determineStatus
  rw [hratio]
  refine ⟨?_, ?_, ?_, ?_⟩
  · intro h
    rw [if_pos h]
  · intro h
    rw [if_neg (by linarith), if_pos h]
  · intro h
    rw [if_neg (by linarith), if_neg (by linarith), if_pos h]
  · intro h
    rw [if_neg h.1, if_neg h.2.1, if_neg h.2.2]

/-- C3 witness: a single supporting source gives ratio 1 (`≥ 0.8`), hence
status `TRUE`. -/
theorem determine_status_bands_witness :
    determineStatus (calculateConsensus
      [ { source_id := "s1", title := "WHO", source_type := "medical",
          credibility := SourceCredibility.high, relevant_excerpt := "e1",
          supports_claim := true, relevance_score := 1 } ]) = VerificationStatus.TRUE := by
  refine (determine_status_bands _ (by simp) 1 ?_).1 (by norm_num)
  simp [List.filter]

/-- `leadsWith` decides whether the needle is an initial segment of the hay. -/
lemma leadsWith_iff (needle : List Char) :
    ∀ hay, leadsWith needle hay = true ↔ ∃ rest, hay = needle ++ rest := by
  induction needle with
  | nil =>
    intro hay
    simp [leadsWith]
  | cons a as ih =>
    intro hay
    cases hay with
    | nil =>
      simp [leadsWith]
    | cons b bs =>
      simp only [leadsWith, Bool.and_eq_true, decide_eq_true_eq, ih, List.cons_append,
        List.cons.injEq]
      constructor
      · rintro ⟨rfl, rest, rfl⟩
        exact ⟨rest, rfl, rfl⟩
      · rintro ⟨rest, rfl, rfl⟩
        exact ⟨rfl, rest, rfl⟩

/-- `hasSub` decides substring containment: it succeeds exactly when the hay
splits as `pre ++ needle ++ post`. -/
lemma hasSub_iff (needle : List Char) :
    ∀ hay, hasSub needle hay = true ↔ ∃ pre post, hay = pre ++ needle ++ post := by
  intro hay
  induction hay with
  | nil =>
    simp only [hasSub, leadsWith_iff]
    constructor
    · rintro ⟨rest, h⟩
      exact ⟨[], rest, by simpa using h⟩
    · rintro ⟨pre, post, h⟩
      rw [eq_comm, List.append_eq_nil, List.append_eq_nil] at h
      exact ⟨[], by simp [h.1.2]⟩
  | cons c cs ih =>
    simp only [hasSub, Bool.or_eq_true, leadsWith_iff, ih]
    constructor
    · rintro (⟨rest, h⟩ | ⟨pre, post, h⟩)
      · exact ⟨[], rest, by simpa using h⟩
      · exact ⟨c :: pre, post, by simp [h]⟩
    · rintro ⟨pre, post, h⟩
      cases pre with
      | nil =>
        exact Or.inl ⟨post, by simpa using h⟩
      | cons d ds =>
        simp only [List.cons_append, List.cons.injEq] at h
        exact Or.inr ⟨ds, post, h.2⟩

/-- C5 counterexample: the generation output "The source neither supports nor
contradicts the claim" mentions the supports token only inside a
non-supporting sentence, yet `_check_support`'s parse
(`"SUPPORTS" in response.upper()`) classifies it as supporting. -/
theorem check_support_mention_counterexample :
    checkSupportParse "The source neither supports nor contradicts the claim" = true := by
  decide

/-- C5 amended: the stance parse of `_check_support` upper-cases the generation
output, so it is case-insensitive, and it classifies an output as supporting
exactly when the token "SUPPORTS" occurs case-insensitively as a substring
anywhere in it — including inside a non-supporting sentence; every output with
no such occurrence is classified as contradicting (the conservative
default). -/
theorem check_support_substring_spec (response : String) :
    checkSupportParse response = true ↔
      ∃ pre post, upperChars response.data = pre ++ "SUPPORTS".data ++ post := by
  unfold checkSupportParse
  exact hasSub_iff _ _

/-- C2 counterexample: one query hit whose stance check exhausts all providers.
`_retrieve_sources` yields the empty evidence list (the RuntimeError is caught
at rag_engine.py line 137), and `verify_claim` returns the terminal unverified
result — yet one `generate_text` call, the stance check, was made during the
run, refuting "no call to the text-generation service (neither stance checking
nor explanation generation) is made". -/
theorem empty_evidence_generation_call_counterexample :
    (retrieveSources (some [sampleItem]) (Except.ok ()) [[ProviderAttempt.failure]]).1 = []
    ∧ (verifyClaim "c" "t" (some [sampleItem]) (Except.ok ())
        [[ProviderAttempt.failure]] []).1 =
        Except.ok
          { claim_id := "c", claim_text := "t",
            status := VerificationStatus.UNVERIFIED, confidence_score := 0,
            explanation := "No authoritative sources found to verify this claim.",
            consensus_type := "none" }
    ∧ (verifyClaim "c" "t" (some [sampleItem]) (Except.ok ())
        [[ProviderAttempt.failure]] []).2 = 1 :=
  ⟨rfl, rfl, rfl⟩

/-- C2 amended: whenever `_retrieve_sources` yields the empty evidence list,
`verify_claim` deterministically and terminally returns status `UNVERIFIED`,
confidence 0 and consensus type "none", making no generation call after
retrieval — `_generate_explanation` never runs — and when retrieval is empty
because the vector store is uninitialized, the embedding failed, or the store
query matched no documents, no stance-checking generation call is made either.
(An empty list can also arise from a stance-checking `generate_text` call that
exhausted all providers; that call was already made inside retrieval.) -/
theorem empty_evidence_terminal
    (claim_id claim_text : String) (store : Option (List QueryItem))
    (embed : Except Unit Unit) (stanceGens : List (List ProviderAttempt))
    (explGen : List ProviderAttempt)
    (hempty : (retrieveSources store embed stanceGens).1 = []) :
    verifyClaim claim_id claim_text store embed stanceGens explGen =
      (Except.ok
        { claim_id := claim_id
          claim_text := claim_text
          status := VerificationStatus.UNVERIFIED
          confidence_score := 0
          explanation := "No authoritative sources found to verify this claim."
          consensus_type := "none" },
        (retrieveSources store embed stanceGens).2)
    ∧ (store = none ∨ embed = Except.error () ∨ store = some [] →
        (verifyClaim claim_id claim_text store embed stanceGens explGen).2 = 0) := by
  constructor
  · unfold verifyClaim
    simp only []
    rw [hempty]
    simp
  · rintro (rfl | rfl | rfl)
    · rfl
    · cases store <;> rfl
    · cases embed <;> rfl

/-- C2 witness: a store query matching no documents makes no generation call at
all and returns the terminal unverified result. -/
theorem empty_evidence_terminal_witness :
    verifyClaim "c1" "flood claim" (some []) (Except.ok ()) [] [] =
      (Except.ok
        { claim_id := "c1"
          claim_text := "flood claim"
          status := VerificationStatus.UNVERIFIED
          confidence_score := 0
          explanation := "No authoritative sources found to verify this claim."
          consensus_type := "none" }, 0)
    ∧ (verifyClaim "c1" "flood claim" (some []) (Except.ok ()) [] []).2 = 0 := by
  have h := empty_evidence_terminal "c1" "flood claim" (some []) (Except.ok ()) [] [] rfl
  exact ⟨h.1, h.2 (Or.inr (Or.inr rfl))⟩

/-- C4 counterexample: the embedding provider chain fails — a ProviderFailure —
yet `verify_claim` returns an ordinary unverified/confidence-0 result instead
of propagating an explicit error, so the caller cannot distinguish this run
from an absence of evidence. -/
theorem provider_failure_swallowed_counterexample :
    (verifyClaim "c" "t" (some [sampleItem]) (Except.error ()) [] []).1 =
      Except.ok
        { claim_id := "c", claim_text := "t",
          status := VerificationStatus.UNVERIFIED, confidence_score := 0,
          explanation := "No authoritative sources found to verify this claim.",
          consensus_type := "none" } :=
  rfl

/-- C4 amended: a provider failure during embedding (and likewise during stance
checking) is caught inside `_retrieve_sources` and converted into empty
evidence, so `verify_claim` returns the ordinary unverified/confidence-0
result, indistinguishable from absence of evidence; only a provider failure
during explanation generation — after non-empty retrieval — propagates as an
explicit error to the caller of `verify_claim`. -/
theorem provider_failure_paths
    (claim_id claim_text : String) (items : List QueryItem)
    (stanceGens : List (List ProviderAttempt)) (explGen : List ProviderAttempt) :
    ((verifyClaim claim_id claim_text (some items) (Except.error ()) stanceGens explGen).1 =
      Except.ok
        { claim_id := claim_id, claim_text := claim_text,
          status := VerificationStatus.UNVERIFIED, confidence_score := 0,
          explanation := "No authoritative sources found to verify this claim.",
          consensus_type := "none" })
    ∧ ((retrieveSources (some items) (Except.ok ()) stanceGens).1 ≠ [] →
        generateText explGen = Except.error () →
        (verifyClaim claim_id claim_text (some items) (Except.ok ()) stanceGens explGen).1 =
          Except.error ()) := by
  constructor
  · rfl
  · intro hne hfail
    unfold verifyClaim
    simp only []
    have hcond : ¬ (retrieveSources (some items) (Except.ok ()) stanceGens).1.isEmpty = true := by
      simpa [List.isEmpty_iff] using hne
    rw [if_neg hcond, hfail]

/-- C4 witness: a successful stance check followed by an exhausted provider
chain at the explanation step makes `verify_claim` itself fail. -/
theorem provider_failure_paths_witness :
    (verifyClaim "c" "t" (some [sampleItem]) (Except.ok ())
        [[ProviderAttempt.success "SUPPORTS"]] [ProviderAttempt.failure]).1 =
      Except.error () := by
  exact (provider_failure_paths "c" "t" [sampleItem]
      [[ProviderAttempt.success "SUPPORTS"]] [ProviderAttempt.failure]).2
    (by decide) rfl

/-- C10: every result `verify_claim` returns on the evidenced path carries
`expert_review_required` equal to `confidence_score < 60` — the hard-coded
threshold at rag_engine.py line 80, unrelated to the configurable guardrails
thresholds, which are no input of `verify_claim` at all — while on the
empty-evidence path the field keeps the pydantic default `False`, so the
unverified result with confidence 0 is returned with
`expert_review_required = false`. -/
theorem expert_review_flag
    (claim_id claim_text : String) (store : Option (List QueryItem))
    (embed : Except Unit Unit) (stanceGens : List (List ProviderAttempt))
    (explGen : List ProviderAttempt) (r : VerificationResult)
    (hok : (verifyClaim claim_id claim_text store embed stanceGens explGen).1 =
      Except.ok r) :
    ((retrieveSources store embed stanceGens).1.isEmpty = false →
      r.expert_review_required = decide (r.confidence_score < 60))
    ∧ ((retrieveSources store embed stanceGens).1.isEmpty = true →
      r.expert_review_required = false ∧ r.confidence_score = 0 ∧
        r.status = VerificationStatus.UNVERIFIED) := by
  unfold verifyClaim at hok
  simp only [] at hok
  constructor
  · intro hne
    rw [hne] at hok
    simp only [Bool.false_eq_true, if_false] at hok
    cases hgen : generateText explGen with
    | error e =>
      rw [hgen] at hok
      simp at hok
    | ok expl =>
      rw [hgen] at hok
      simp only [Except.ok.injEq] at hok
      subst hok
      rfl
  · intro hemp
    rw [hemp] at hok
    simp only [if_true] at hok
    simp only [Except.ok.injEq] at hok
    subst hok
    exact ⟨rfl, rfl, rfl⟩

/-- C10 witness: a concrete evidenced run (one supporting high-credibility hit,
successful explanation) whose returned flag equals the comparison of its own
confidence with 60. -/
theorem expert_review_flag_witness :
    (okResult (verifyClaim "c" "t" (some [sampleItem]) (Except.ok ())
        [[ProviderAttempt.success "SUPPORTS"]]
        [ProviderAttempt.success "ok"])).expert_review_required =
      decide ((okResult (verifyClaim "c" "t" (some [sampleItem]) (Except.ok ())
        [[ProviderAttempt.success "SUPPORTS"]]
        [ProviderAttempt.success "ok"])).confidence_score < 60) := by
  exact (expert_review_flag "c" "t" (some [sampleItem]) (Except.ok ())
      [[ProviderAttempt.success "SUPPORTS"]] [ProviderAttempt.success "ok"]
      (okResult (verifyClaim "c" "t" (some [sampleItem]) (Except.ok ())
        [[ProviderAttempt.success "SUPPORTS"]] [ProviderAttempt.success "ok"]))
      rfl).1 rfl

/-- C9: `require_expert_review` returns `(true, reason)` if and only if at
least one of {confidence below the low threshold, split consensus, P0 priority,
medical-topic claim backed by fewer than two high-credibility sources} holds,
the reported reason being that of the first matching condition in this order,
and returns `(false, "")` otherwise. -/
theorem require_expert_review_spec (thr : ℚ) (v : VerificationResult)
    (claim_text : String) :
    ((requireExpertReview thr v claim_text).1 = true ↔
      (v.confidence_score < thr ∨ v.consensus_type = "split"
        ∨ hasSub "P0".data v.metadata_priority.data = true
        ∨ ((hasSub "medical".data (lowerChars claim_text.data)
            || hasSub "vaccine".data (lowerChars claim_text.data)
            || hasSub "treatment".data (lowerChars claim_text.data)) = true
          ∧ (v.sources.filter (fun s => s.credibility = SourceCredibility.high)).length < 2)))
    ∧ (v.confidence_score < thr →
        requireExpertReview thr v claim_text = (true, "Low confidence score"))
    ∧ (¬ v.confidence_score < thr → v.consensus_type = "split" →
        requireExpertReview thr v claim_text = (true, "Conflicting evidence from sources"))
    ∧ (¬ v.confidence_score < thr → v.consensus_type ≠ "split" →
        hasSub "P0".data v.metadata_priority.data = true →
        requireExpertReview thr v claim_text =
          (true, "P0 priority claim - potential imminent harm"))
    ∧ (¬ v.confidence_score < thr → v.consensus_type ≠ "split" →
        hasSub "P0".data v.metadata_priority.data = false →
        (hasSub "medical".data (lowerChars claim_text.data)
          || hasSub "vaccine".data (lowerChars claim_text.data)
          || hasSub "treatment".data (lowerChars claim_text.data)) = true →
        (v.sources.filter (fun s => s.credibility = SourceCredibility.high)).length < 2 →
        requireExpertReview thr v claim_text =
          (true, "Medical claim with insufficient high-credibility sources"))
    ∧ (¬ v.confidence_score < thr → v.consensus_type ≠ "split" →
        hasSub "P0".data v.metadata_priority.data = false →
        ¬ ((hasSub "medical".data (lowerChars claim_text.data)
            || hasSub "vaccine".data (lowerChars claim_text.data)
            || hasSub "treatment".data (lowerChars claim_text.data)) = true
          ∧ (v.sources.filter (fun s => s.credibility = SourceCredibility.high)).length < 2) →
        requireExpertReview thr v claim_text = (false, "")) := by
  unfold requireExpertReview
  split_ifs with h1 h2 h3 h4 <;>
    simp_all [Bool.and_eq_true, decide_eq_true_eq]

/-- C9 witness: a result with adequate confidence but a split consensus is
routed to expert review with the split-consensus reason. -/
theorem require_expert_review_spec_witness :
    requireExpertReview 60
      { claim_id := "c9", claim_text := "t", status := VerificationStatus.MISLEADING,
        confidence_score := 70, explanation := "e", consensus_type := "split" }
      "storm claim" = (true, "Conflicting evidence from sources") := by
  exact (require_expert_review_spec 60
      { claim_id := "c9", claim_text := "t", status := VerificationStatus.MISLEADING,
        confidence_score := 70, explanation := "e", consensus_type := "split" }
      "storm claim").2.2.1 (by norm_num) rfl

/-- Folding increments over a live key whose expiry no timestamp reaches adds
the number of increments to the count and leaves the expiry untouched. -/
lemma foldl_increment_within (window e : Nat) :
    ∀ (ts : List Nat) (c a : Nat), (∀ t ∈ ts, t < e) →
      ts.foldl (fun acc t => incrementClaimVelocity t window acc.2) (a, some (c, e)) =
        (if ts.isEmpty then a else c + ts.length, some (c + ts.length, e)) := by
  intro ts
  induction ts with
  | nil =>
    intro c a _
    simp
  | cons t ts ih =>
    intro c a hall
    have ht : t < e := hall t (by simp)
    simp only [List.foldl_cons]
    have hstep : incrementClaimVelocity t window (some (c, e)) = (c + 1, some (c + 1, e)) := by
      simp [incrementClaimVelocity, liveKey, ht]
    rw [hstep]
    rw [ih (c + 1) (c + 1) (fun u hu => hall u (by simp [hu]))]
    cases ts with
    | nil => simp
    | cons u us =>
      simp only [List.isEmpty_cons, List.length_cons, Bool.false_eq_true, if_false,
        Prod.mk.injEq, Option.some.injEq]
      exact ⟨by omega, by omega, trivial⟩

/-- C6: for a claim fingerprint the first increment creates the counter at 1
and sets the window expiry; every further increment within the window adds 1
to the same counter without touching the expiry, so a run of `n` increments
inside one window ends at count `n` (in particular 501 increments give 501,
reported trending at threshold 500 by `get_trending_claims`); and once the
window has expired the next increment restarts the count at 1 with a fresh
window. -/
theorem velocity_counter_spec (window : Nat) :
    (∀ t, incrementClaimVelocity t window none = (1, some (1, t + window)))
    ∧ (∀ t c e, t < e →
        incrementClaimVelocity t window (some (c, e)) = (c + 1, some (c + 1, e)))
    ∧ (∀ t0 ts, (∀ t ∈ ts, t < t0 + window) →
        runIncrements window (t0 :: ts) none =
          (ts.length + 1, some (ts.length + 1, t0 + window)))
    ∧ (∀ now fp c e thr, now < e → thr ≤ c →
        (fp, c) ∈ getTrendingClaims now [(fp, some (c, e))] thr)
    ∧ (∀ t c e, e ≤ t →
        incrementClaimVelocity t window (some (c, e)) = (1, some (1, t + window))) := by
  refine ⟨fun t => rfl, ?_, ?_, ?_, ?_⟩
  · intro t c e ht
    simp [incrementClaimVelocity, liveKey, ht]
  · intro t0 ts hall
    unfold runIncrements
    simp only [List.foldl_cons]
    have hfirst : incrementClaimVelocity t0 window none = (1, some (1, t0 + window)) := rfl
    rw [hfirst, foldl_increment_within window (t0 + window) ts 1 1 hall]
    cases ts with
    | nil => simp
    | cons u us =>
      simp only [List.isEmpty_cons, List.length_cons, Bool.false_eq_true, if_false,
        Prod.mk.injEq, Option.some.injEq]
      exact ⟨by omega, by omega, trivial⟩
  · intro now fp c e thr hnow hthr
    simp [getTrendingClaims, liveKey, hnow, List.mem_insertionSort, List.mem_filter, hthr]
  · intro t c e ht
    simp [incrementClaimVelocity, liveKey, Nat.not_lt.mpr ht]

/-- C6 witness: 501 increments (times 0, 1, ..., 500) within one 3600-second
window end at count 501; a fingerprint at count 501 is trending at threshold
500; and the first increment after expiry restarts the count at 1. -/
theorem velocity_counter_spec_witness :
    runIncrements 3600 (0 :: (List.range 500).map (fun i => i + 1)) none =
      (501, some (501, 3600))
    ∧ ("fp", 501) ∈ getTrendingClaims 1800 [("fp", some (501, 3600))] 500
    ∧ incrementClaimVelocity 3600 3600 (some (501, 3600)) = (1, some (1, 7200)) := by
  have h := velocity_counter_spec 3600
  refine ⟨?_, ?_, ?_⟩
  · have h3 := h.2.2.1 0 ((List.range 500).map (fun i => i + 1)) ?_
    · simpa using h3
    · intro t ht
      simp only [List.mem_map, List.mem_range] at ht
      obtain ⟨i, hi, rfl⟩ := ht
      omega
  · exact h.2.2.2.1 1800 "fp" 501 3600 500 (by norm_num) (by norm_num)
  · exact h.2.2.2.2 3600 501 3600 (le_refl _)

/-- The fold behind `earliestPost` returns the accumulator or a list element. -/
lemma foldl_earlierPost_mem (ps : List Post) (p : Post) :
    ps.foldl earlierPost p = p ∨ ps.foldl earlierPost p ∈ ps := by
  induction ps generalizing p with
  | nil => exact Or.inl rfl
  | cons q ps ih =>
    simp only [List.foldl_cons]
    rcases ih (earlierPost p q) with h | h
    · rw [h]
      unfold earlierPost
      split_ifs
      · exact Or.inr (List.mem_cons_self _ _)
      · exact Or.inl rfl
    · exact Or.inr (List.mem_cons_of_mem _ h)

/-- The fold behind `earliestPost` reaches a minimal `created_at`. -/
lemma foldl_earlierPost_le (ps : List Post) (p : Post) :
    (ps.foldl earlierPost p).created_at ≤ p.created_at ∧
      ∀ q ∈ ps, (ps.foldl earlierPost p).created_at ≤ q.created_at := by
  induction ps generalizing p with
  | nil => simp
  | cons q ps ih =>
    simp only [List.foldl_cons]
    obtain ⟨h1, h2⟩ := ih (earlierPost p q)
    have hacc : (earlierPost p q).created_at ≤ p.created_at ∧
        (earlierPost p q).created_at ≤ q.created_at := by
      unfold earlierPost
      split_ifs with h <;> omega
    refine ⟨le_trans h1 hacc.1, ?_⟩
    intro x hx
    rcases List.mem_cons.mp hx with rfl | hx
    · exact le_trans h1 hacc.2
    · exact h2 x hx

/-- C7: `find_patient_zero` selects, among all posts whose `claim_text`
contains the target claim text, one that matches and has the earliest
`created_at`, joined to a user that posted it; and when no post matches, it
returns `none` — "not found" — rather than an error. -/
theorem find_patient_zero_spec (claim_text : String) (posts : List Post)
    (posted : List PostedEdge) :
    (posts.filter (fun p => hasSub claim_text.data p.claim_text.data) = [] →
      findPatientZero claim_text posts posted = none)
    ∧ (∀ r, findPatientZero claim_text posts posted = some r →
        ∃ p ∈ posts.filter (fun p => hasSub claim_text.data p.claim_text.data),
          p.post_id = r.post_id ∧ p.created_at = r.created_at ∧
          (∀ q ∈ posts.filter (fun p => hasSub claim_text.data p.claim_text.data),
            r.created_at ≤ q.created_at) ∧
          ∃ e ∈ posted, e.post_id = p.post_id ∧ e.user.user_id = r.user_id ∧
            e.user.username = r.username ∧
            e.user.followers_count = r.followers_count) := by
  constructor
  · intro h
    unfold findPatientZero
    rw [h]
    rfl
  · intro r hr
    unfold findPatientZero at hr
    cases hmatch : earliestPost (posts.filter (fun p => hasSub claim_text.data p.claim_text.data)) with
    | none => rw [hmatch] at hr; cases hr
    | some p =>
      rw [hmatch] at hr
      dsimp only at hr
      cases hfind : posted.find? (fun e => e.post_id = p.post_id) with
      | none => rw [hfind] at hr; cases hr
      | some e =>
        rw [hfind] at hr
        simp only [Option.some.injEq] at hr
        subst hr
        have hmem : p ∈ posts.filter (fun p => hasSub claim_text.data p.claim_text.data) ∧
            ∀ q ∈ posts.filter (fun p => hasSub claim_text.data p.claim_text.data),
              p.created_at ≤ q.created_at := by
          cases hl : posts.filter (fun p => hasSub claim_text.data p.claim_text.data) with
          | nil => rw [hl] at hmatch; cases hmatch
          | cons x xs =>
            rw [hl] at hmatch
            simp only [earliestPost, Option.some.injEq] at hmatch
            subst hmatch
            constructor
            · rcases foldl_earlierPost_mem xs x with h | h
              · rw [h]; exact List.mem_cons_self _ _
              · exact List.mem_cons_of_mem _ h
            · intro q hq
              obtain ⟨h1, h2⟩ := foldl_earlierPost_le xs x
              rcases List.mem_cons.mp hq with rfl | hq
              · exact h1
              · exact h2 q hq
        refine ⟨p, hmem.1, rfl, rfl, hmem.2, e, List.mem_of_find?_eq_some hfind, ?_, rfl, rfl, rfl⟩
        have := List.find?_some hfind
        simpa using this

/-- C7 witness: over posts `{A : t=10, B : t=5, C : t=20}` sharing the claim
text, `find_patient_zero` returns post B — the earliest — joined to its
posting user, and B's timestamp is minimal among the matching posts. -/
theorem find_patient_zero_spec_witness :
    findPatientZero "the dam broke" [postA, postB, postC] pzEdges = some pzB
    ∧ ∀ q ∈ [postA, postB, postC].filter
        (fun p => hasSub "the dam broke".data p.claim_text.data),
        pzB.created_at ≤ q.created_at := by
  have h := (find_patient_zero_spec "the dam broke" [postA, postB, postC] pzEdges).2
    pzB (by decide)
  obtain ⟨p, hp, hid, hca, hmin, -⟩ := h
  exact ⟨by decide, hmin⟩

/-- C8 counterexample: over the 3-level reshare chain `o ← s1 ← s2 ← s3`
bounded at depth 2, `get_propagation_tree` does not return exactly the
origin's direct and second-level resharers: the Cypher pattern uses
`*0..max_depth`, so the origin itself is returned as a row at depth 0. -/
theorem propagation_tree_counterexample :
    getPropagationTree chainPosts chainPosted chainEdges "o" 2 = [rowO, rowS1, rowS2]
    ∧ getPropagationTree chainPosts chainPosted chainEdges "o" 2 ≠ [rowS1, rowS2] := by
  exact ⟨by decide, by decide⟩

/-- C8 amended: `get_propagation_tree` returns one row per (path, posting-user)
pair for every post reachable from the origin by `SHARED_FROM` chains of
length `0` through `max_depth` — the origin itself included at depth 0 — with
its posting user and depth, ordered by `(depth, created_at)`; each returned
row lies within the depth bound and its post is reachable at exactly its
recorded depth, so over a 3-level reshare chain bounded at depth 2 the result
is the origin row plus the direct and second-level resharers, excluding the
third level. -/
theorem propagation_tree_spec (posts : List Post) (posted : List PostedEdge)
    (edges : List SharedFromEdge) (origin : String) (max_depth : Nat) :
    List.Perm (getPropagationTree posts posted edges origin max_depth)
      (propagationRows posts posted edges origin max_depth)
    ∧ List.Sorted treeRowLE (getPropagationTree posts posted edges origin max_depth)
    ∧ (∀ row ∈ getPropagationTree posts posted edges origin max_depth,
        row.depth ≤ max_depth ∧ row.post_id ∈ sharedAtDepth edges origin row.depth) := by
  refine ⟨List.perm_insertionSort _ _, List.sorted_insertionSort _ _, ?_⟩
  intro row hrow
  rw [getPropagationTree, List.mem_insertionSort] at hrow
  rw [propagationRows, List.mem_flatMap] at hrow
  obtain ⟨k, hk, hrow⟩ := hrow
  rw [List.mem_range] at hk
  rw [List.mem_flatMap] at hrow
  obtain ⟨pid, hpid, hrow⟩ := hrow
  cases hfind : posts.find? (fun p => p.post_id = pid) with
  | none => rw [hfind] at hrow; cases hrow
  | some p =>
    rw [hfind] at hrow
    rw [List.mem_map] at hrow
    obtain ⟨e, he, rfl⟩ := hrow
    constructor
    · show k ≤ max_depth
      omega
    · show pid ∈ sharedAtDepth edges origin k
      exact hpid

/-- C8 witness: the corrected concrete outcome — origin row at depth 0 plus the
depth-1 and depth-2 resharers, third level excluded — and the depth-bound and
reachability facts for the origin row. -/
theorem propagation_tree_spec_witness :
    getPropagationTree chainPosts chainPosted chainEdges "o" 2 = [rowO, rowS1, rowS2]
    ∧ (rowO.depth ≤ 2 ∧ rowO.post_id ∈ sharedAtDepth chainEdges "o" rowO.depth) := by
  refine ⟨by decide,
    (propagation_tree_spec chainPosts chainPosted chainEdges "o" 2).2.2 rowO (by decide)⟩

end KnowInfo
